import Mathlib

/-!
# Verification of the grid-layout widget page

Shallow embedding of the single React component in `src/unnamed/part_000`:
the widget store (a list of widgets), the placement engine
(`handleDragOver`, `handleDrop`, the resize mouse-move step of
`handleResize`), the deletion handler (`handleDelete`), the inline
name/score editors, and the formula evaluator (`evaluateFormula`).

Modelling conventions:
* Pixel coordinates (`clientX`, `clientY`, bounding-rect origins, drag
  offsets) are modelled as integers; `Math.floor(p / CELL_SIZE)` is then
  integer floor-division (`Int.fdiv`), which agrees with the rational
  floor `⌊p / CELL_SIZE⌋` (`fdiv_cellSize_eq_ratFloor` below).
* Grid cells, spans and scores are integers.  A score field holding `NaN`
  (which `parseInt` produces on malformed input) is modelled as
  `Option ℤ` with `none` for `NaN`.
* The impure calls (`Math.random()`, `Date.now()`) become explicit
  parameters of the handlers: the random sample feeding
  `generateRandomScore`, the random index feeding `generateRandomName`,
  and the fresh widget id.
* JavaScript numbers inside the formula evaluator are modelled by
  `JSNum`: an exact (unnormalised) fraction, or one of the special values
  `Infinity`, `-Infinity`, `NaN`, with JavaScript's propagation rules.
  Arithmetic is exact: IEEE-754 rounding and negative zero are not
  modelled, so theorems about formatted output are asserted only at
  concrete inputs whose values and formatting agree between the exact
  model and double arithmetic.  The `toFixed(2)` formatter includes the
  ECMA-262 branch that returns `ToString(x)` (scientific form, e.g.
  `1e+21`) for magnitudes at least 1e21.
* The dynamic `new Function(params, "return " + formula)` call evaluates
  the whitelisted formula text as a JavaScript expression; it is modelled
  by a tokenizer and a fuelled recursive-descent parser/evaluator for the
  arithmetic expression grammar that the character whitelist is meant to
  admit (numeric literals, identifiers bound to the variable mapping plus
  the globals `Infinity` and `NaN`, unary `+`/`-`, binary `+ - * /`,
  parentheses).  JavaScript inputs outside that grammar that the real
  page would still evaluate (exponent literals such as `1e3`, the `**`
  operator, `//` and `/* */` comments, `++`/`--` update expressions,
  other shadowable browser globals, automatic semicolon insertion after
  a mid-formula line break) are modelled as evaluation errors; every
  theorem below that concerns a *successful* evaluation carries the
  model's success as a hypothesis, so these gaps only shrink the covered
  input set.  A formula whose text begins with a line terminator triggers
  automatic semicolon insertion directly after `return` in the real code
  and therefore never yields a number; it is modelled as an evaluation
  error, which produces the same `'Error'` result.
-/

namespace GridWidget

/-- Constant `GRID_ROWS` from the source. -/
def GRID_ROWS : ℤ := 10

/-- Constant `GRID_COLS` from the source. -/
def GRID_COLS : ℤ := 8

/-- Constant `CELL_SIZE` from the source (logical pixels per cell). -/
def CELL_SIZE : ℤ := 100

/-- Constant `SIMPLE_NAMES` from the source. -/
def SIMPLE_NAMES : List String :=
  ["cat", "dog", "tree", "bird",
   "fish", "star", "moon", "sun",
   "leaf", "cloud", "rain", "wind"]

/-- Widget kind: `'score' | 'calculator'`. -/
inductive WType where
  | score
  | calculator
deriving DecidableEq, Repr

/-- The `Widget` interface.  The field `score : Option ℤ` models a
JavaScript number that is either an integer or `NaN` (`none`). -/
structure Widget where
  id : String
  x : ℤ
  y : ℤ
  width : ℤ
  height : ℤ
  type : WType
  title : String
  name : String
  score : Option ℤ
  formula : String
deriving DecidableEq, Repr

/-- The `DraggingWidget` interface: a widget snapshot plus the `isNew`
flag and the pointer offset inside the dragged element. -/
structure DraggingWidget extends Widget where
  isNew : Bool
  offsetX : ℤ
  offsetY : ℤ
deriving DecidableEq, Repr

/-- Function `generateRandomScore`: `Math.floor(Math.random() * 101)`,
with the `Math.random()` sample `r` made explicit. -/
def generateRandomScore (r : ℚ) : ℤ := ⌊r * 101⌋

/-- Function `generateRandomName`: filter `SIMPLE_NAMES` down to the
names not used by any widget and pick a random element, falling back to
`'x'`.  The random index `Math.floor(Math.random() *
availableNames.length)` is made explicit as `k` (already reduced modulo
the length); when the available list is empty the indexing yields
`undefined` and the `|| 'x'` fallback fires, modelled by `getD _ "x"`. -/
def generateRandomName (widgets : List Widget) (k : ℕ) : String :=
  let availableNames := SIMPLE_NAMES.filter (fun n => ¬ widgets.any (fun w => w.name = n))
  availableNames.getD (k % availableNames.length) "x"

/-- The axis-aligned rectangle-overlap test used (inlined, twice) by
`handleDragOver` and `handleDrop`: candidate rectangle `(x, y, w, h)`
against the existing widget `e`. -/
def overlapsP (x y w h : ℤ) (e : Widget) : Prop :=
  x < e.x + e.width ∧ x + w > e.x ∧ y < e.y + e.height ∧ y + h > e.y

instance (x y w h : ℤ) (e : Widget) : Decidable (overlapsP x y w h e) := by
  unfold overlapsP; infer_instance

/-- The candidate cell computed by `handleDragOver`/`handleDrop`:
`Math.floor((clientPos - rectOrigin - offset) / CELL_SIZE)` followed by
the clamp `Math.max(0, Math.min(·, bound - span))`. -/
def candidateCell (clientPos rectOrigin offset : ℤ) (span bound : ℤ) : ℤ :=
  max 0 (min (Int.fdiv (clientPos - rectOrigin - offset) CELL_SIZE) (bound - span))

/-- Handler `handleDragOver`: compute the clamped candidate cell; if it
collides with no *other* widget and the dragged widget is not new, commit
the move (update the dragged widget's position in the store); otherwise
leave the store unchanged. -/
def handleDragOver (d : DraggingWidget) (clientX clientY rectLeft rectTop : ℤ)
    (widgets : List Widget) : List Widget :=
  let x := candidateCell clientX rectLeft d.offsetX d.width GRID_COLS
  let y := candidateCell clientY rectTop d.offsetY d.height GRID_ROWS
  let wouldOverlap := widgets.any (fun existing =>
    decide (existing.id ≠ d.id) && decide (overlapsP x y d.width d.height existing))
  if ¬ wouldOverlap = true ∧ ¬ d.isNew = true then
    widgets.map (fun w => if w.id = d.id then { w with x := x, y := y } else w)
  else
    widgets

/-- Handler `handleDrop`: when the dragged item is new, build the new
widget (with the fresh id `freshId`, and for score widgets a random name
and score, made explicit by `k` and `r`) at the clamped candidate cell,
and append it to the store only when it collides with no existing widget.
Drops of existing widgets change nothing here (their moves were already
committed live by `handleDragOver`). -/
def handleDrop (d : DraggingWidget) (clientX clientY rectLeft rectTop : ℤ)
    (freshId : String) (r : ℚ) (k : ℕ) (widgets : List Widget) : List Widget :=
  let x := candidateCell clientX rectLeft d.offsetX d.width GRID_COLS
  let y := candidateCell clientY rectTop d.offsetY d.height GRID_ROWS
  if d.isNew then
    let newWidget : Widget :=
      { d.toWidget with
        id := freshId
        x := x
        y := y
        name := if d.type = WType.score then generateRandomName widgets k else ""
        score := if d.type = WType.score then some (generateRandomScore r) else some 0 }
    let wouldOverlap := widgets.any (fun existing =>
      decide (overlapsP x y newWidget.width newWidget.height existing))
    if ¬ wouldOverlap = true then widgets ++ [newWidget] else widgets
  else
    widgets

/-- One `mousemove` step of the resize gesture started by `handleResize`
on the snapshot `widget`: for calculator widgets `handleResize` returns
before installing the listener, so nothing happens; otherwise the new
span is `clamp(start + floor(pixelDelta / CELL_SIZE), min, gridBound -
widget.pos)` and the widget with the snapshot's id is updated.  No
collision check against other widgets is performed. -/
def handleResizeMove (widget : Widget) (clientX clientY startX startY : ℤ)
    (widgets : List Widget) : List Widget :=
  if widget.type = WType.calculator then widgets
  else
    let deltaX := Int.fdiv (clientX - startX) CELL_SIZE
    let deltaY := Int.fdiv (clientY - startY) CELL_SIZE
    let newWidth := max 2 (min (widget.width + deltaX) (GRID_COLS - widget.x))
    let newHeight := max 1 (min (widget.height + deltaY) (GRID_ROWS - widget.y))
    widgets.map (fun w =>
      if w.id = widget.id then { w with width := newWidth, height := newHeight } else w)

/-- Handler `handleDelete`: remove every widget whose id is `widgetId`. -/
def handleDelete (widgetId : String) (widgets : List Widget) : List Widget :=
  widgets.filter (fun w => w.id ≠ widgetId)

/-- The sanitisation applied by the name input's `onChange`:
`text.toLowerCase().replace(/[^a-z]/g, '')`.  ASCII lowercasing; the few
Unicode characters whose JavaScript lowercase form is an ASCII letter
(e.g. U+212A) are not modelled. -/
def sanitizeName (text : String) : String :=
  String.mk ((text.data.map Char.toLower).filter (fun c => 'a' ≤ c ∧ c ≤ 'z'))

/-- The name input's `onChange` handler: sanitise the entered text, and
commit it only when `widgets.every(w => w.id === widget.id || w.name !==
name)` holds; otherwise the store is left unchanged. -/
def editName (widgets : List Widget) (widgetId : String) (text : String) : List Widget :=
  let name := sanitizeName text
  if widgets.all (fun w => decide (w.id = widgetId) || decide (w.name ≠ name)) then
    widgets.map (fun w => if w.id = widgetId then { w with name := name } else w)
  else
    widgets

/-- Helper of the lexer and of `jsParseInt`: consume leading decimal
digits, returning the accumulated value, the number of digits read, and
the rest. -/
def lexDigits : ℕ → ℕ → List Char → ℕ × ℕ × List Char
  | acc, count, [] => (acc, count, [])
  | acc, count, c :: cs =>
    if c.isDigit then lexDigits (10 * acc + (c.toNat - '0'.toNat)) (count + 1) cs
    else (acc, count, c :: cs)

/-- JavaScript's `\s` character class (the whitespace characters the
formula whitelist admits and `parseInt` skips). -/
def jsWhitespace (c : Char) : Bool :=
  c = '\t' || c = '\n' || c = '\x0b' || c = '\x0c' || c = '\r' || c = ' ' ||
  c.toNat = 0xA0 || c.toNat = 0x1680 ||
  (0x2000 ≤ c.toNat && c.toNat ≤ 0x200A) ||
  c.toNat = 0x2028 || c.toNat = 0x2029 || c.toNat = 0x202F || c.toNat = 0x205F ||
  c.toNat = 0x3000 || c.toNat = 0xFEFF

/-- A JavaScript line terminator (relevant for automatic semicolon
insertion after `return`). -/
def isLineTerminator (c : Char) : Bool :=
  c = '\n' || c = '\r' || c.toNat = 0x2028 || c.toNat = 0x2029

/-- JavaScript `parseInt(text, 10)` as used by the score input's
`onChange`: skip leading whitespace, read an optional sign and then
leading decimal digits; `NaN` (modelled `none`) if no digit is found. -/
def jsParseInt (text : String) : Option ℤ :=
  let cs := text.data.dropWhile jsWhitespace
  let signAndRest : ℤ × List Char :=
    match cs with
    | '-' :: rest => (-1, rest)
    | '+' :: rest => (1, rest)
    | _ => (1, cs)
  let lexed := lexDigits 0 0 signAndRest.2
  if lexed.2.1 = 0 then none else some (signAndRest.1 * lexed.1)

/-- The score input's `onChange` handler:
`Math.max(0, Math.min(100, parseInt(text, 10)))` stored into the widget.
`Math.min`/`Math.max` return `NaN` when an argument is `NaN`, so a
malformed input stores `NaN` (`none`). -/
def editScore (widgets : List Widget) (widgetId : String) (text : String) : List Widget :=
  let newScore : Option ℤ :=
    match jsParseInt text with
    | some v => some (max 0 (min 100 v))
    | none => none
  widgets.map (fun w => if w.id = widgetId then { w with score := newScore } else w)

/-- The Random button's `onClick` handler: store a fresh
`generateRandomScore()` into the widget, leaving every other field (the
name in particular) unchanged. -/
def randomizeScore (widgets : List Widget) (widgetId : String) (r : ℚ) : List Widget :=
  widgets.map (fun w =>
    if w.id = widgetId then { w with score := some (generateRandomScore r) } else w)

/-! ## The formula evaluator -/

/-- A JavaScript number in the formula evaluator: an exact unnormalised
fraction `fin n d` (value `n / d`, with `d > 0` maintained by
construction), positive or negative infinity, or `NaN`. -/
inductive JSNum where
  | fin (n : ℤ) (d : ℤ)
  | inf
  | negInf
  | nan
deriving DecidableEq, Repr

namespace JSNum

/-- JavaScript unary minus (negative zero is not distinguished). -/
def neg : JSNum → JSNum
  | fin n d => fin (-n) d
  | inf => negInf
  | negInf => inf
  | nan => nan

/-- JavaScript `+` on numbers. -/
def add : JSNum → JSNum → JSNum
  | fin n₁ d₁, fin n₂ d₂ => fin (n₁ * d₂ + n₂ * d₁) (d₁ * d₂)
  | fin _ _, inf => inf
  | fin _ _, negInf => negInf
  | inf, fin _ _ => inf
  | negInf, fin _ _ => negInf
  | inf, inf => inf
  | negInf, negInf => negInf
  | inf, negInf => nan
  | negInf, inf => nan
  | _, _ => nan

/-- JavaScript `-` on numbers. -/
def sub (a b : JSNum) : JSNum := add a (neg b)

/-- JavaScript `*` on numbers (`0 * ±Infinity` is `NaN`). -/
def mul : JSNum → JSNum → JSNum
  | fin n₁ d₁, fin n₂ d₂ => fin (n₁ * n₂) (d₁ * d₂)
  | fin n _, inf => if n = 0 then nan else if 0 < n then inf else negInf
  | fin n _, negInf => if n = 0 then nan else if 0 < n then negInf else inf
  | inf, fin n _ => if n = 0 then nan else if 0 < n then inf else negInf
  | negInf, fin n _ => if n = 0 then nan else if 0 < n then negInf else inf
  | inf, inf => inf
  | negInf, negInf => inf
  | inf, negInf => negInf
  | negInf, inf => negInf
  | _, _ => nan

/-- JavaScript `/` on numbers: division by (positive) zero yields a
signed infinity, `0 / 0` yields `NaN`, a finite value over an infinity
yields `0` (negative zero is not distinguished). -/
def div : JSNum → JSNum → JSNum
  | fin n₁ d₁, fin n₂ d₂ =>
    if n₂ = 0 then
      if n₁ = 0 then nan else if 0 < n₁ then inf else negInf
    else
      if 0 < d₁ * n₂ then fin (n₁ * d₂) (d₁ * n₂) else fin (-(n₁ * d₂)) (-(d₁ * n₂))
  | fin _ _, inf => fin 0 1
  | fin _ _, negInf => fin 0 1
  | inf, fin n _ => if 0 ≤ n then inf else negInf
  | negInf, fin n _ => if 0 ≤ n then negInf else inf
  | inf, inf => nan
  | inf, negInf => nan
  | negInf, inf => nan
  | negInf, negInf => nan
  | _, _ => nan

end JSNum

/-- Two-digit zero-padding for the fractional part of `toFixed(2)`. -/
def pad2 (k : ℕ) : String :=
  if k < 10 then "0" ++ toString k else toString k

/-- The ECMA-262 `ToString` of a positive integer `m` with at least 22
decimal digits (the `n > 21` case of the Number-to-String algorithm):
with `n` the digit count and `s` the digits without trailing zeros,
print the first digit of `s`, a dot and the remaining digits of `s` when
there are any, then `e+` and `n - 1`.  For example `10^21` prints as
`1e+21`. -/
def ecmaScientific (m : ℕ) : String :=
  let digits := (Nat.repr m).data
  let sDigits := (digits.reverse.dropWhile (fun c => c = '0')).reverse
  let rest := sDigits.drop 1
  String.mk (sDigits.take 1) ++
    (if rest.isEmpty then "" else "." ++ String.mk rest) ++
    "e+" ++ toString (digits.length - 1)

/-- Formatting `Number(x).toFixed(2)` per ECMA-262 on the exact model:
`NaN` prints as `NaN` and infinities as `Infinity` / `-Infinity`; for a
finite value the sign is split off, and then a magnitude of at least
`10^21` is returned through `ToString` (scientific form, see
`ecmaScientific`; non-integer magnitudes that large cannot arise from
double arithmetic, and the model formats the integer part's digits),
while a smaller magnitude is rounded half away from zero to an integer
`m` of hundredths and printed as `(m / 100) ++ "." ++ (m % 100)` with
the fraction zero-padded to two digits.  (IEEE-754 rounding of the
value itself is outside the exact model.) -/
def jsToFixed2 : JSNum → String
  | JSNum.fin n d =>
    let sign := if (n < 0 ∧ 0 < d) ∨ (0 < n ∧ d < 0) then "-" else ""
    let na := n.natAbs
    let da := d.natAbs
    if 10 ^ 21 * da ≤ na then
      sign ++ ecmaScientific (na / da)
    else
      let m := (200 * na + da) / (2 * da)
      sign ++ toString (m / 100) ++ "." ++ pad2 (m % 100)
  | JSNum.inf => "Infinity"
  | JSNum.negInf => "-Infinity"
  | JSNum.nan => "NaN"

/-- A token of the JavaScript expression sub-language reachable through
the character whitelist.  `inc`/`dec` are the `++`/`--` punctuators,
which the lexer produces by maximal munch and the parser always
rejects. -/
inductive Tok where
  | num (n : ℤ) (d : ℤ)
  | ident (s : String)
  | plus
  | minus
  | times
  | divide
  | lparen
  | rparen
  | inc
  | dec
deriving DecidableEq, Repr

/-- Lex an identifier (letter followed by letters or digits), returning
the accumulated characters and the rest. -/
def lexIdent : List Char → List Char → List Char × List Char
  | acc, [] => (acc, [])
  | acc, c :: cs =>
    if c.isAlpha || c.isDigit then lexIdent (acc ++ [c]) cs
    else (acc, c :: cs)

/-- Tokenize the formula text: skip whitespace, lex numeric literals
(digits with an optional fraction; exponent literal forms are not part of
the modelled grammar), identifiers, and the operator/punctuator
characters.  `none` models a lexing error (a character the grammar does
not know). -/
def tokenizeAux : ℕ → List Char → Option (List Tok)
  | 0, _ => none
  | _ + 1, [] => some []
  | fuel + 1, c :: cs =>
    if jsWhitespace c then tokenizeAux fuel cs
    else if c.isDigit then
      let lexed := lexDigits 0 0 (c :: cs)
      match lexed.2.2 with
      | '.' :: rest₂ =>
        let frac := lexDigits 0 0 rest₂
        (tokenizeAux fuel frac.2.2).map
          (fun ts => Tok.num (lexed.1 * 10 ^ frac.2.1 + frac.1) (10 ^ frac.2.1) :: ts)
      | rest => (tokenizeAux fuel rest).map (fun ts => Tok.num lexed.1 1 :: ts)
    else if c = '.' then
      let frac := lexDigits 0 0 cs
      if frac.2.1 = 0 then none
      else (tokenizeAux fuel frac.2.2).map
        (fun ts => Tok.num frac.1 (10 ^ frac.2.1) :: ts)
    else if c.isAlpha then
      let lexed := lexIdent [] (c :: cs)
      (tokenizeAux fuel lexed.2).map (fun ts => Tok.ident (String.mk lexed.1) :: ts)
    else if c = '+' then
      match cs with
      | '+' :: cs₂ => (tokenizeAux fuel cs₂).map (fun ts => Tok.inc :: ts)
      | _ => (tokenizeAux fuel cs).map (fun ts => Tok.plus :: ts)
    else if c = '-' then
      match cs with
      | '-' :: cs₂ => (tokenizeAux fuel cs₂).map (fun ts => Tok.dec :: ts)
      | _ => (tokenizeAux fuel cs).map (fun ts => Tok.minus :: ts)
    else if c = '*' then (tokenizeAux fuel cs).map (fun ts => Tok.times :: ts)
    else if c = '/' then (tokenizeAux fuel cs).map (fun ts => Tok.divide :: ts)
    else if c = '(' then (tokenizeAux fuel cs).map (fun ts => Tok.lparen :: ts)
    else if c = ')' then (tokenizeAux fuel cs).map (fun ts => Tok.rparen :: ts)
    else none

/-- Resolve an identifier: the function parameters (the variable mapping)
shadow the globals; of the globals only `Infinity` and `NaN` are
modelled, every other unbound identifier is a model-level evaluation
error (a `ReferenceError` in a clean scope). -/
def lookupVar (vars : List (String × JSNum)) (s : String) : Option JSNum :=
  match vars.lookup s with
  | some v => some v
  | none => if s = "Infinity" then some JSNum.inf
            else if s = "NaN" then some JSNum.nan
            else none

mutual

/-- Parse/evaluate a primary expression: literal, identifier, or
parenthesised expression. -/
def parsePrimary : ℕ → List Tok → List (String × JSNum) → Option (JSNum × List Tok)
  | 0, _, _ => none
  | _ + 1, Tok.num n d :: rest, _ => some (JSNum.fin n d, rest)
  | _ + 1, Tok.ident s :: rest, vars => (lookupVar vars s).map (fun v => (v, rest))
  | fuel + 1, Tok.lparen :: rest, vars =>
    match parseExpr fuel rest vars with
    | some (v, Tok.rparen :: rest₂) => some (v, rest₂)
    | _ => none
  | _ + 1, _, _ => none

/-- Parse/evaluate a unary expression: chains of unary `+`/`-` in front
of a primary expression. -/
def parseUnary : ℕ → List Tok → List (String × JSNum) → Option (JSNum × List Tok)
  | 0, _, _ => none
  | fuel + 1, Tok.minus :: rest, vars =>
    (parseUnary fuel rest vars).map (fun vr => (vr.1.neg, vr.2))
  | fuel + 1, Tok.plus :: rest, vars => parseUnary fuel rest vars
  | fuel + 1, toks, vars => parsePrimary fuel toks vars

/-- Parse/evaluate a multiplicative expression. -/
def parseTerm (fuel : ℕ) (toks : List Tok) (vars : List (String × JSNum)) :
    Option (JSNum × List Tok) :=
  match fuel with
  | 0 => none
  | fuel + 1 =>
    match parseUnary fuel toks vars with
    | some (v, rest) => parseTermRest fuel v rest vars
    | none => none

/-- The multiplicative tail: zero or more `*`/`/` steps, folded left. -/
def parseTermRest : ℕ → JSNum → List Tok → List (String × JSNum) → Option (JSNum × List Tok)
  | 0, _, _, _ => none
  | fuel + 1, acc, Tok.times :: rest, vars =>
    match parseUnary fuel rest vars with
    | some (v, rest₂) => parseTermRest fuel (acc.mul v) rest₂ vars
    | none => none
  | fuel + 1, acc, Tok.divide :: rest, vars =>
    match parseUnary fuel rest vars with
    | some (v, rest₂) => parseTermRest fuel (acc.div v) rest₂ vars
    | none => none
  | _ + 1, acc, toks, _ => some (acc, toks)

/-- Parse/evaluate an additive expression. -/
def parseExpr (fuel : ℕ) (toks : List Tok) (vars : List (String × JSNum)) :
    Option (JSNum × List Tok) :=
  match fuel with
  | 0 => none
  | fuel + 1 =>
    match parseTerm fuel toks vars with
    | some (v, rest) => parseExprRest fuel v rest vars
    | none => none

/-- The additive tail: zero or more `+`/`-` steps, folded left. -/
def parseExprRest : ℕ → JSNum → List Tok → List (String × JSNum) → Option (JSNum × List Tok)
  | 0, _, _, _ => none
  | fuel + 1, acc, Tok.plus :: rest, vars =>
    match parseTerm fuel rest vars with
    | some (v, rest₂) => parseExprRest fuel (acc.add v) rest₂ vars
    | none => none
  | fuel + 1, acc, Tok.minus :: rest, vars =>
    match parseTerm fuel rest vars with
    | some (v, rest₂) => parseExprRest fuel (acc.sub v) rest₂ vars
    | none => none
  | _ + 1, acc, toks, _ => some (acc, toks)

end

/-- Evaluation of `new Function(...params, "return " + formula)(...args)`
on the modelled grammar: `none` is a thrown error (or, for a formula
whose text begins with a line terminator, the automatic-semicolon
insertion path, which equally never produces a number). -/
def evalFormulaNum (formula : String) (vars : List (String × JSNum)) : Option JSNum :=
  let cs := formula.data
  if (cs.takeWhile jsWhitespace).any isLineTerminator then none
  else
    match tokenizeAux (cs.length + 1) cs with
    | none => none
    | some [] => none
    | some toks =>
      match parseExpr (8 * toks.length + 8) toks vars with
      | some (v, []) => some v
      | _ => none

/-- The character class of the whitelist regex in `evaluateFormula`:
ASCII letters, digits, `\s`, and `+ - * / ( ) .`. -/
def allowedChar (c : Char) : Bool :=
  c.isAlpha || c.isDigit || jsWhitespace c ||
  c = '+' || c = '-' || c = '*' || c = '/' || c = '(' || c = ')' || c = '.'

/-- The whitelist test of `evaluateFormula`: the anchored regex with a
one-or-more quantifier matches exactly the nonempty strings all of whose
characters are in the class. -/
def formulaWhitelisted (formula : String) : Bool :=
  !formula.data.isEmpty && formula.data.all allowedChar

/-- Function `evaluateFormula` from the source: reject (with the
`'Error'` marker) any formula failing the character whitelist; otherwise
evaluate it with the variable mapping in scope, return `'Error'` if
evaluation throws or the result is `NaN`, and otherwise format the
numeric result with `toFixed(2)`. -/
def evaluateFormula (formula : String) (vars : List (String × JSNum)) : String :=
  if formulaWhitelisted formula then
    match evalFormulaNum formula vars with
    | none => "Error"
    | some r => if r = JSNum.nan then "Error" else jsToFixed2 r
  else
    "Error"

/-! ## Derived predicates and concrete fixtures -/

/-- The boundary invariant of the data model: a widget lies inside the
8-column, 10-row grid. -/
def inBounds (w : Widget) : Prop :=
  0 ≤ w.x ∧ 0 ≤ w.y ∧ w.x + w.width ≤ GRID_COLS ∧ w.y + w.height ≤ GRID_ROWS

instance (w : Widget) : Decidable (inBounds w) := by unfold inBounds; infer_instance

/-- Disjointness of the cell rectangles of two widgets. -/
def disjointW (a b : Widget) : Prop := ¬ overlapsP a.x a.y a.width a.height b

instance (a b : Widget) : Decidable (disjointW a b) := by unfold disjointW; infer_instance

/-- Fixture: a placed 2×1 score widget at the origin. -/
def sampleScoreW : Widget :=
  { id := "w1", x := 0, y := 0, width := 2, height := 1, type := WType.score,
    title := "Score", name := "cat", score := some 42, formula := "" }

/-- Fixture: a second placed score widget, named differently. -/
def sampleScoreW2 : Widget :=
  { id := "w3", x := 0, y := 2, width := 2, height := 1, type := WType.score,
    title := "Score", name := "dog", score := some 7, formula := "" }

/-- Fixture: a placed calculator widget; on drop the source gives
calculators the empty name. -/
def sampleCalcW : Widget :=
  { id := "w2", x := 4, y := 2, width := 4, height := 2, type := WType.calculator,
    title := "Calculator", name := "", score := some 0, formula := "" }

/-- Fixture: the score library item as a drag payload (`isNew = true`),
matching the `libraryItems` entry of the source. -/
def dScoreLib : DraggingWidget :=
  { id := "score", x := 0, y := 0, width := 2, height := 1, type := WType.score,
    title := "Score", name := "", score := some 37, formula := "",
    isNew := true, offsetX := 0, offsetY := 0 }

/-- Fixture: the widget that the first drop of `c1State` places (used as
the resize snapshot). -/
def c1Widget1 : Widget :=
  { id := "w1", x := 0, y := 0, width := 2, height := 1, type := WType.score,
    title := "Score", name := "cat", score := some 0, formula := "" }

/-- Fixture: drop two score widgets side by side at (0,0) and (2,0),
then resize the first one three cells to the right.  The resize step
performs no collision check. -/
def c1State : List Widget :=
  handleResizeMove c1Widget1 300 0 0 0
    (handleDrop dScoreLib 200 0 0 0 "w2" 0 0
      (handleDrop dScoreLib 0 0 0 0 "w1" 0 0 []))

/-- Fixture: a store holding a calculator (empty name) and a score
widget. -/
def c8Store : List Widget := [sampleCalcW, sampleScoreW]

/-! ## Theorems -/

/-- On integer pixels, `Int.fdiv · CELL_SIZE` is exactly the
`Math.floor` of the exact quotient: the embedding of the cell formula is
faithful to `Math.floor((p - o - f) / 100)`. -/
theorem fdiv_cellSize_eq_ratFloor (a : ℤ) :
    Int.fdiv a CELL_SIZE = ⌊(a : ℚ) / ((CELL_SIZE : ℤ) : ℚ)⌋ := by
  rw [show ((CELL_SIZE : ℤ) : ℚ) = ((100 : ℕ) : ℚ) by norm_num [CELL_SIZE]]
  rw [Rat.floor_intCast_div_natCast]
  rw [Int.fdiv_eq_ediv _ (by norm_num [CELL_SIZE])]
  rfl

/-- Helper: the clamped candidate cell is nonnegative and leaves the
span inside the bound whenever the span fits the grid at all. -/
theorem candidateCell_bounds (clientPos rectOrigin offset span bound : ℤ)
    (hspan : span ≤ bound) :
    0 ≤ candidateCell clientPos rectOrigin offset span bound ∧
    candidateCell clientPos rectOrigin offset span bound + span ≤ bound := by
  unfold candidateCell
  constructor
  · exact le_max_left 0 _
  · have h1 : min (Int.fdiv (clientPos - rectOrigin - offset) CELL_SIZE) (bound - span) ≤
        bound - span := min_le_right _ _
    omega

/-- Helper: the rectangle-overlap test is symmetric in the two
rectangles. -/
theorem overlapsP_comm (a b : Widget) :
    overlapsP a.x a.y a.width a.height b ↔ overlapsP b.x b.y b.width b.height a := by
  unfold overlapsP
  omega

/-- Helper: a widget moved to a cell whose rectangle does not overlap
`b` is disjoint from `b`. -/
theorem disjoint_move_left (a b : Widget) (x y : ℤ)
    (h : ¬ overlapsP x y a.width a.height b) :
    disjointW { a with x := x, y := y } b := h

/-- Helper: symmetric version of `disjoint_move_left`. -/
theorem disjoint_move_right (a b : Widget) (x y : ℤ)
    (h : ¬ overlapsP x y b.width b.height a) :
    disjointW a { b with x := x, y := y } := by
  intro hov
  exact h ((overlapsP_comm a { b with x := x, y := y }).mp hov)

/-- C1 (counterexample): the at-rest no-overlap claim fails once resizes
are included.  Dropping two 2×1 score widgets at cells (0,0) and (2,0)
and then resizing the first by three cells produces a store whose
widgets' rectangles overlap: `handleResize` performs no collision
check. -/
theorem c1State_overlaps :
    ¬ c1State.Pairwise disjointW := by decide

/-- C1 (amended): drops and live drag-over moves do preserve pairwise
disjointness of the stored cell rectangles, provided the stored ids are
pairwise distinct and the drag snapshot carries the stored widget's
dimensions; only resize can break the invariant. -/
theorem dragOver_drop_preserve_disjoint (d : DraggingWidget)
    (clientX clientY rectLeft rectTop : ℤ) (freshId : String) (r : ℚ) (k : ℕ)
    (ws : List Widget)
    (hpd : ws.Pairwise disjointW)
    (hids : (ws.map Widget.id).Nodup)
    (hsnap : ∀ w ∈ ws, w.id = d.id → w.width = d.width ∧ w.height = d.height) :
    (handleDragOver d clientX clientY rectLeft rectTop ws).Pairwise disjointW ∧
    (handleDrop d clientX clientY rectLeft rectTop freshId r k ws).Pairwise disjointW := by
  have hids' : ws.Pairwise (fun a b => a.id ≠ b.id) := List.pairwise_map.mp hids
  constructor
  · unfold handleDragOver
    by_cases hc : (¬ (ws.any (fun existing =>
        decide (existing.id ≠ d.id) &&
        decide (overlapsP (candidateCell clientX rectLeft d.offsetX d.width GRID_COLS)
          (candidateCell clientY rectTop d.offsetY d.height GRID_ROWS)
          d.width d.height existing))) = true ∧ ¬ d.isNew = true)
    · rw [if_pos hc]
      have hno : ∀ e ∈ ws, e.id ≠ d.id →
          ¬ overlapsP (candidateCell clientX rectLeft d.offsetX d.width GRID_COLS)
            (candidateCell clientY rectTop d.offsetY d.height GRID_ROWS)
            d.width d.height e := by
        intro e he hne
        have hfalse := (Bool.not_eq_true _).mp hc.1
        rw [List.any_eq_false] at hfalse
        have := hfalse e he
        simpa [hne] using this
      rw [List.pairwise_map]
      rw [List.pairwise_iff_getElem] at hpd hids' ⊢
      intro i j hi hj hij
      have hd := hpd i j hi hj hij
      have hne := hids' i j hi hj hij
      by_cases hia : ws[i].id = d.id
      · by_cases hjb : ws[j].id = d.id
        · exact absurd (hia.trans hjb.symm) hne
        · rw [if_pos hia, if_neg hjb]
          refine disjoint_move_left _ _ _ _ ?_
          rcases hsnap ws[i] (List.getElem_mem hi) hia with ⟨hww, hhh⟩
          rw [hww, hhh]
          exact hno ws[j] (List.getElem_mem hj) hjb
      · by_cases hjb : ws[j].id = d.id
        · rw [if_neg hia, if_pos hjb]
          refine disjoint_move_right _ _ _ _ ?_
          rcases hsnap ws[j] (List.getElem_mem hj) hjb with ⟨hww, hhh⟩
          rw [hww, hhh]
          exact hno ws[i] (List.getElem_mem hi) hia
        · rw [if_neg hia, if_neg hjb]
          exact hd
    · rw [if_neg hc]
      exact hpd
  · unfold handleDrop
    by_cases hnew : d.isNew = true
    · rw [if_pos hnew]
      by_cases hov : (¬ (ws.any (fun existing =>
          decide (overlapsP (candidateCell clientX rectLeft d.offsetX d.width GRID_COLS)
            (candidateCell clientY rectTop d.offsetY d.height GRID_ROWS)
            d.width d.height existing))) = true)
      · rw [if_pos hov]
        rw [List.pairwise_append]
        refine ⟨hpd, List.pairwise_singleton _ _, ?_⟩
        intro a ha b hb
        rw [List.mem_singleton] at hb
        subst hb
        intro hcontra
        have hfalse := (Bool.not_eq_true _).mp hov
        rw [List.any_eq_false] at hfalse
        have hnota := hfalse a ha
        simp only [decide_eq_true_eq] at hnota
        exact hnota ((overlapsP_comm a _).mp hcontra)
      · rw [if_neg hov]
        exact hpd
    · rw [if_neg hnew]
      exact hpd

/-- Witness for C1 (amended): dropping a second score widget at cell
(2,0) next to one at (0,0) keeps the store pairwise disjoint. -/
theorem dragOver_drop_preserve_disjoint_witness :
    (handleDrop dScoreLib 200 0 0 0 "w2" 0 0 [c1Widget1]).Pairwise disjointW :=
  (dragOver_drop_preserve_disjoint dScoreLib 200 0 0 0 "w2" 0 0 [c1Widget1]
    (by decide) (by decide) (by decide)).2

/-- C2: a formula containing any character outside the whitelist class
(ASCII letters, digits, `+ - * / ( ) .` and whitespace) is rejected with
the `'Error'` marker, for every variable mapping; the whitelist check in
the source short-circuits before the dynamic function is ever built. -/
theorem evaluateFormula_rejects_bad_char (formula : String) (vars : List (String × JSNum))
    (h : ∃ c ∈ formula.data, allowedChar c = false) :
    evaluateFormula formula vars = "Error" := by
  have hw : formulaWhitelisted formula = false := by
    unfold formulaWhitelisted
    rcases h with ⟨c, hc, hbad⟩
    have : formula.data.all allowedChar = false := by
      rw [List.all_eq_false]
      exact ⟨c, hc, by simp [hbad]⟩
    simp [this]
  unfold evaluateFormula
  simp [hw]

/-- Witness for C2: the injection attempt `a; alert(1)` is rejected. -/
theorem evaluateFormula_rejects_bad_char_witness :
    evaluateFormula "a; alert(1)" [("a", JSNum.fin 10 1)] = "Error" :=
  evaluateFormula_rejects_bad_char "a; alert(1)" [("a", JSNum.fin 10 1)]
    ⟨';', by decide, by decide⟩

/-- C3: the candidate cell is the floor of the exact pixel quotient
clamped into `[0, GRID_COLS - width]` (resp. rows), and each of
drag-over placement, drop, and a resize step keeps every widget inside
the 8×10 grid, given that the prior store is in bounds, the dragged
dimensions fit the grid, and the snapshots match the stored widget. -/
theorem placement_resize_in_bounds (d : DraggingWidget) (widget : Widget)
    (clientX clientY rectLeft rectTop startX startY : ℤ)
    (freshId : String) (r : ℚ) (k : ℕ) (ws : List Widget)
    (hws : ∀ w ∈ ws, inBounds w)
    (hdw : d.width ≤ GRID_COLS) (hdh : d.height ≤ GRID_ROWS)
    (hsnap : ∀ w ∈ ws, w.id = d.id → w.width = d.width ∧ w.height = d.height)
    (hrw : widget.x + widget.width ≤ GRID_COLS) (hrh : widget.y + widget.height ≤ GRID_ROWS)
    (hrw2 : 2 ≤ widget.width) (hrh1 : 1 ≤ widget.height)
    (hrsnap : ∀ w ∈ ws, w.id = widget.id → w.x = widget.x ∧ w.y = widget.y) :
    (∀ p o f s b : ℤ, candidateCell p o f s b = max 0 (min ⌊((p - o - f : ℤ) : ℚ) / 100⌋ (b - s))) ∧
    (∀ w ∈ handleDragOver d clientX clientY rectLeft rectTop ws, inBounds w) ∧
    (∀ w ∈ handleDrop d clientX clientY rectLeft rectTop freshId r k ws, inBounds w) ∧
    (∀ w ∈ handleResizeMove widget clientX clientY startX startY ws, inBounds w) := by
  have hcw := candidateCell_bounds clientX rectLeft d.offsetX d.width GRID_COLS hdw
  have hch := candidateCell_bounds clientY rectTop d.offsetY d.height GRID_ROWS hdh
  refine ⟨?_, ?_, ?_, ?_⟩
  · intro p o f s b
    unfold candidateCell
    rw [fdiv_cellSize_eq_ratFloor]
    norm_num [CELL_SIZE]
  · intro w hw
    unfold handleDragOver at hw
    by_cases hc : (¬ (ws.any (fun existing =>
        decide (existing.id ≠ d.id) &&
        decide (overlapsP (candidateCell clientX rectLeft d.offsetX d.width GRID_COLS)
          (candidateCell clientY rectTop d.offsetY d.height GRID_ROWS)
          d.width d.height existing))) = true ∧ ¬ d.isNew = true)
    · rw [if_pos hc] at hw
      rcases List.mem_map.mp hw with ⟨w₀, hw₀, rfl⟩
      by_cases hid : w₀.id = d.id
      · rcases hsnap w₀ hw₀ hid with ⟨hww, hhh⟩
        have h₀ := hws w₀ hw₀
        rw [if_pos hid]
        unfold inBounds at h₀ ⊢
        simp only
        omega
      · rw [if_neg hid]
        exact hws w₀ hw₀
    · rw [if_neg hc] at hw
      exact hws w hw
  · intro w hw
    unfold handleDrop at hw
    by_cases hnew : d.isNew = true
    · rw [if_pos hnew] at hw
      by_cases hov : (¬ (ws.any (fun existing =>
          decide (overlapsP (candidateCell clientX rectLeft d.offsetX d.width GRID_COLS)
            (candidateCell clientY rectTop d.offsetY d.height GRID_ROWS)
            d.width d.height existing))) = true)
      · rw [if_pos hov] at hw
        rcases List.mem_append.mp hw with h | h
        · exact hws w h
        · rcases List.mem_singleton.mp h with rfl
          unfold inBounds
          simp only
          exact ⟨hcw.1, hch.1, hcw.2, hch.2⟩
      · rw [if_neg hov] at hw
        exact hws w hw
    · rw [if_neg hnew] at hw
      exact hws w hw
  · intro w hw
    unfold handleResizeMove at hw
    by_cases hty : widget.type = WType.calculator
    · rw [if_pos hty] at hw
      exact hws w hw
    · rw [if_neg hty] at hw
      rcases List.mem_map.mp hw with ⟨w₀, hw₀, rfl⟩
      by_cases hid : w₀.id = widget.id
      · rcases hrsnap w₀ hw₀ hid with ⟨hx, hy⟩
        have h₀ := hws w₀ hw₀
        rw [if_pos hid]
        unfold inBounds at h₀ ⊢
        simp only
        have hminw : min (widget.width + Int.fdiv (clientX - startX) CELL_SIZE)
            (GRID_COLS - widget.x) ≤ GRID_COLS - widget.x := min_le_right _ _
        have hminh : min (widget.height + Int.fdiv (clientY - startY) CELL_SIZE)
            (GRID_ROWS - widget.y) ≤ GRID_ROWS - widget.y := min_le_right _ _
        omega
      · rw [if_neg hid]
        exact hws w₀ hw₀

/-- Witness for C3: after a resize step by three cells on the sample
store, the widget grown to width 5 is still in bounds. -/
theorem placement_resize_in_bounds_witness :
    inBounds { sampleScoreW with width := 5, height := 1 } :=
  (placement_resize_in_bounds dScoreLib sampleScoreW 300 0 0 0 0 0 "w9" 0 0
    [sampleScoreW, sampleCalcW] (by decide) (by decide) (by decide) (by decide)
    (by decide) (by decide) (by decide) (by decide) (by decide)).2.2.2
    { sampleScoreW with width := 5, height := 1 } (by decide)

/-- C4: a drop of a new library item whose clamped candidate rectangle
overlaps an existing widget leaves the store exactly unchanged, and a
drag-over with a new (not-yet-placed) item never modifies the store (new
items are only inserted at drop). -/
theorem drop_discard_and_dragOver_no_insert (d : DraggingWidget)
    (clientX clientY rectLeft rectTop : ℤ) (freshId : String) (r : ℚ) (k : ℕ)
    (ws : List Widget) (hnew : d.isNew = true) :
    ((∃ w ∈ ws, overlapsP (candidateCell clientX rectLeft d.offsetX d.width GRID_COLS)
        (candidateCell clientY rectTop d.offsetY d.height GRID_ROWS) d.width d.height w) →
      handleDrop d clientX clientY rectLeft rectTop freshId r k ws = ws) ∧
    handleDragOver d clientX clientY rectLeft rectTop ws = ws := by
  constructor
  · intro h
    unfold handleDrop
    rcases h with ⟨w, hw, hov⟩
    have hany : ws.any (fun existing =>
        decide (overlapsP (candidateCell clientX rectLeft d.offsetX d.width GRID_COLS)
          (candidateCell clientY rectTop d.offsetY d.height GRID_ROWS)
          d.width d.height existing)) = true := by
      rw [List.any_eq_true]
      exact ⟨w, hw, by simpa using hov⟩
    simp only [hnew, if_true]
    simp [hany]
  · unfold handleDragOver
    simp [hnew]

/-- Witness for C4: dropping a new score item onto the cells occupied by
the sample widget leaves the store unchanged. -/
theorem drop_discard_witness :
    handleDrop dScoreLib 50 0 0 0 "w9" 0 0 [sampleScoreW] = [sampleScoreW] :=
  (drop_discard_and_dragOver_no_insert dScoreLib 50 0 0 0 "w9" 0 0 [sampleScoreW]
    (by decide)).1 ⟨sampleScoreW, by decide, by decide⟩

/-- C5 (counterexample): `a / 0` with `{a: 10}` does *not* return the
error marker: JavaScript division by zero yields `Infinity`,
`isNaN(Infinity)` is false, and `toFixed(2)` prints `Infinity`. -/
theorem evaluateFormula_div_zero_not_error :
    evaluateFormula "a / 0" [("a", JSNum.fin 10 1)] ≠ "Error" := by decide

/-- C5 (amended): `a / 0` with `{a: 10}` evaluates to the string
`Infinity`. -/
theorem evaluateFormula_div_zero_infinity :
    evaluateFormula "a / 0" [("a", JSNum.fin 10 1)] = "Infinity" := by decide

/-- C6 (code evaluated at the failing input): a score edit whose text
parses to `NaN` (here the empty string, as when the field is cleared)
stores `NaN` in the widget's score — `Math.max(0, Math.min(100, NaN))`
is `NaN` — so the stored value is not an integer in `[0, 100]`. -/
theorem editScore_stores_nan :
    jsParseInt "" = none ∧
    (editScore [sampleScoreW] "w1" "").map Widget.score = [none] := by
  constructor
  · decide
  · decide

/-- C7: an edit-name operation sanitises the text (lowercase, strip
non-`a`-`z`); if the result equals another widget's name the store is
left exactly unchanged, and otherwise precisely the edited widget's name
becomes the sanitised text; the sanitised text contains only `a`-`z`. -/
theorem editName_spec (ws : List Widget) (wid : String) (text : String) :
    ((∃ w ∈ ws, w.id ≠ wid ∧ w.name = sanitizeName text) → editName ws wid text = ws) ∧
    ((∀ w ∈ ws, w.id ≠ wid → w.name ≠ sanitizeName text) →
      editName ws wid text =
        ws.map (fun w => if w.id = wid then { w with name := sanitizeName text } else w)) ∧
    (sanitizeName text).data.all (fun c => decide ('a' ≤ c) && decide (c ≤ 'z')) = true := by
  refine ⟨?_, ?_, ?_⟩
  · intro h
    unfold editName
    rcases h with ⟨w, hw, hne, hname⟩
    have hall : ws.all (fun w => decide (w.id = wid) || decide (w.name ≠ sanitizeName text)) =
        false := by
      rw [List.all_eq_false]
      exact ⟨w, hw, by simp [hne, hname]⟩
    simp only [hall]
    simp
  · intro h
    unfold editName
    have hall : ws.all (fun w => decide (w.id = wid) || decide (w.name ≠ sanitizeName text)) =
        true := by
      rw [List.all_eq_true]
      intro w hw
      by_cases hid : w.id = wid
      · simp [hid]
      · simp [hid, h w hw hid]
    simp only [hall]
    simp
  · unfold sanitizeName
    rw [List.all_eq_true]
    intro c hc
    simp only [List.mem_filter] at hc
    rcases hc with ⟨_, hc⟩
    simpa using hc

/-- Witness for C7: renaming the second score widget to `Cat!!`
sanitises to `cat`, collides with the first score widget's name, and is
rejected with the store unchanged. -/
theorem editName_spec_witness :
    editName [sampleScoreW, sampleScoreW2] "w3" "Cat!!" = [sampleScoreW, sampleScoreW2] :=
  (editName_spec [sampleScoreW, sampleScoreW2] "w3" "Cat!!").1
    ⟨sampleScoreW, by decide, by decide, by decide⟩

/-- C8 (counterexample): the uniqueness check has no type filter and no
empty-name exemption.  In a store holding a calculator (whose name is
the empty string) and a score widget named `cat`, editing the score
widget's name to the empty string is rejected: the store is unchanged
and the name stays `cat`, contradicting the claim that an empty result
is always accepted. -/
theorem editName_empty_rejected :
    editName c8Store "w1" "" = c8Store ∧
    ∀ w ∈ editName c8Store "w1" "", w.id = "w1" → w.name = "cat" := by
  constructor
  · decide
  · decide

/-- C8 (amended): name uniqueness is enforced against *all* widgets
regardless of type and the empty name is *not* exempt: an edit whose
sanitised result is empty is rejected (store unchanged) whenever any
other widget has the empty name. -/
theorem editName_empty_collision (ws : List Widget) (wid : String) (text : String)
    (hempty : sanitizeName text = "")
    (h : ∃ w ∈ ws, w.id ≠ wid ∧ w.name = "") :
    editName ws wid text = ws := by
  unfold editName
  rcases h with ⟨w, hw, hne, hname⟩
  have hall : ws.all (fun w => decide (w.id = wid) || decide (w.name ≠ sanitizeName text)) =
      false := by
    rw [List.all_eq_false]
    exact ⟨w, hw, by simp [hne, hname, hempty]⟩
  simp only [hall]
  simp

/-- Witness for C8 (amended): editing the score widget's name to
`5 + 3` (which sanitises to the empty string) in the presence of the
empty-named calculator is rejected. -/
theorem editName_empty_collision_witness :
    editName c8Store "w1" "5 + 3" = c8Store :=
  editName_empty_collision c8Store "w1" "5 + 3" (by decide)
    ⟨sampleCalcW, by decide, by decide, by decide⟩

/-- C9 (counterexample): the whitelisted formula
`1000000000000000000000` evaluates successfully to the finite non-`NaN`
value `10^21` (exactly representable as a double), yet the returned
string is not that value formatted to two decimal places:
`Number(1e21).toFixed(2)` takes the ECMA-262 branch returning
`ToString(x)` for magnitudes at least `10^21` and prints `1e+21`. -/
theorem evaluateFormula_1e21_not_two_decimals :
    evaluateFormula "1000000000000000000000" [] ≠ "1000000000000000000000.00" := by
  decide

/-- C9 (amended): `a + b` with `{a: 10, b: 5}` evaluates to `15.00`; a
successful finite non-`NaN` result is passed through
`Number(result).toFixed(2)`, which produces a two-decimal string only
for magnitudes below `10^21` — e.g. `1/3` with no variables prints as
`0.33` — and produces the scientific `ToString` form at or above that
threshold: `1000000000000000000000` prints as `1e+21`.  Each asserted
input is exact in double arithmetic (or, for `1/3`, rounds to the same
two decimals), so the exact model and the program agree on these
strings. -/
theorem evaluateFormula_toFixed_examples :
    evaluateFormula "a + b" [("a", JSNum.fin 10 1), ("b", JSNum.fin 5 1)] = "15.00" ∧
    evaluateFormula "1/3" [] = "0.33" ∧
    evaluateFormula "1000000000000000000000" [] = "1e+21" := by
  refine ⟨by decide, by decide, by decide⟩

/-- C10: `handleDelete` removes exactly the widgets with the given id: a
widget is in the result iff it was in the store with a different id, the
result is a sublist of the store (relative order and all fields of the
survivors unchanged), and deleting an id not present leaves the store
exactly unchanged. -/
theorem handleDelete_spec (widgetId : String) (ws : List Widget) :
    (∀ w, w ∈ handleDelete widgetId ws ↔ w ∈ ws ∧ w.id ≠ widgetId) ∧
    (handleDelete widgetId ws).Sublist ws ∧
    ((∀ w ∈ ws, w.id ≠ widgetId) → handleDelete widgetId ws = ws) := by
  refine ⟨?_, ?_, ?_⟩
  · intro w
    unfold handleDelete
    simp [List.mem_filter]
  · exact List.filter_sublist ws
  · intro h
    unfold handleDelete
    rw [List.filter_eq_self]
    intro w hw
    simpa using h w hw

/-- Witness for C10: deleting an absent id leaves the sample store
exactly unchanged. -/
theorem handleDelete_spec_witness :
    handleDelete "absent" [sampleScoreW, sampleCalcW] = [sampleScoreW, sampleCalcW] :=
  (handleDelete_spec "absent" [sampleScoreW, sampleCalcW]).2.2 (by decide)

end GridWidget
